import Mathlib

/-!
Shallow embedding of `telegram_football_alert_bot.py`.

Numeric values (Python ints and floats) are modelled as rationals `ℚ`;
Python dictionaries whose keys may be absent are modelled as structures
with `Option` fields, where `none` models a missing key and lookup with
a default (`dict.get(k, 0)`) becomes `Option.getD`.  A raised `KeyError`
is modelled with `Except KeyErr`.
-/

namespace FootballBot

/-- The `stats` dictionary consumed by `compute_goal_probability`
(keys `xG_home`, `xG_away`, `shots_on_home`, `shots_on_away`,
`attacks_home`, `attacks_away`; a `none` field models a missing key). -/
structure StatsDict where
  xG_home : Option ℚ
  xG_away : Option ℚ
  shots_on_home : Option ℚ
  shots_on_away : Option ℚ
  attacks_home : Option ℚ
  attacks_away : Option ℚ
  deriving DecidableEq

/-- `compute_goal_probability` (source lines 45-63): reads the six stats
with default 0, forms the weighted score and returns `min(score / 2, 1.0)`. -/
def compute_goal_probability (stats : StatsDict) : ℚ :=
  let xg_home := stats.xG_home.getD 0
  let xg_away := stats.xG_away.getD 0
  let shots_home := stats.shots_on_home.getD 0
  let shots_away := stats.shots_on_away.getD 0
  let attacks_home := stats.attacks_home.getD 0
  let attacks_away := stats.attacks_away.getD 0
  let score := (xg_home + xg_away) * 0.5
  let score := score + (shots_home + shots_away) * 0.05
  let score := score + (attacks_home + attacks_away) * 0.01
  min (score / 2) 1

/-- One element of a per-team `"statistics"` list: a `"type"` label and a
`"value"` that may be `null` (modelled by `none`). -/
structure StatEntry where
  type : String
  value : Option ℚ
  deriving DecidableEq

/-- One element of the statistics response for a fixture: the `"team"`
object (its `"name"`) and the `"statistics"` list.  A `none` field models
the corresponding key being absent, which makes the Python code raise
`KeyError`. -/
structure TeamBlock where
  team : Option String
  statistics : Option (List StatEntry)
  deriving DecidableEq

/-- The `"teams"` object of a live match: home and away team names. -/
structure Teams where
  home : String
  away : String
  deriving DecidableEq

/-- One element of the live-matches response.  `fixture` models the
`"fixture"` object (its `"id"`), `teams` the `"teams"` object; `none`
models the key being absent (a `KeyError` when accessed). -/
structure RawMatch where
  fixture : Option ℤ
  teams : Option Teams
  deriving DecidableEq

/-- The dictionary keys whose absence raises `KeyError` in `analyze_matches`. -/
inductive KeyErr where
  | fixture
  | teams
  | team
  | statistics
  deriving DecidableEq

/-- The six local accumulator variables of the extraction loop in
`analyze_matches` (source lines 75-80), all initialised to 0. -/
structure Extracted where
  xg_home : ℚ
  xg_away : ℚ
  shots_home : ℚ
  shots_away : ℚ
  attacks_home : ℚ
  attacks_away : ℚ
  deriving DecidableEq

/-- The initial all-zero accumulator (source lines 75-80). -/
def zeroExtracted : Extracted := ⟨0, 0, 0, 0, 0, 0⟩

/-- The body of the inner loop `for s in stats` (source lines 85-100):
three independent `if` tests on `s["type"]`, each routing `s["value"] or 0`
to the home field when `team_name == teams["home"]["name"]` and to the
away field otherwise. -/
def applyEntry (homeName teamName : String) (acc : Extracted) (s : StatEntry) : Extracted :=
  let acc1 :=
    if s.type = "Shots on Goal" then
      if teamName = homeName then { acc with shots_home := s.value.getD 0 }
      else { acc with shots_away := s.value.getD 0 }
    else acc
  let acc2 :=
    if s.type = "Attacks" then
      if teamName = homeName then { acc1 with attacks_home := s.value.getD 0 }
      else { acc1 with attacks_away := s.value.getD 0 }
    else acc1
  if s.type = "xG" then
    if teamName = homeName then { acc2 with xg_home := s.value.getD 0 }
    else { acc2 with xg_away := s.value.getD 0 }
  else acc2

/-- One iteration of `for team_stats in stats_response` (source lines 82-100):
reading `team_stats["team"]["name"]` raises when `"team"` is absent, then
`team_stats["statistics"]` raises when absent, then the inner loop folds
over the entries. -/
def applyBlock (homeName : String) (acc : Extracted) (b : TeamBlock) :
    Except KeyErr Extracted :=
  match b.team with
  | none => Except.error KeyErr.team
  | some teamName =>
    match b.statistics with
    | none => Except.error KeyErr.statistics
    | some stats => Except.ok (stats.foldl (applyEntry homeName teamName) acc)

/-- The extraction loop over all blocks of one fixture's statistics
response, threading the accumulator and propagating the first `KeyError`. -/
def extractStats (homeName : String) : List TeamBlock → Extracted → Except KeyErr Extracted
  | [], acc => Except.ok acc
  | b :: bs, acc =>
    match applyBlock homeName acc b with
    | Except.error e => Except.error e
    | Except.ok acc2 => extractStats homeName bs acc2

/-- The `real_stats` dictionary built at source lines 102-109: all six keys
present, taken from the extraction accumulators. -/
def mkStats (e : Extracted) : StatsDict :=
  { xG_home := some e.xg_home
    xG_away := some e.xg_away
    shots_on_home := some e.shots_home
    shots_on_away := some e.shots_away
    attacks_home := some e.attacks_home
    attacks_away := some e.attacks_away }

/-- `fetch_match_statistics` (source lines 32-42), modelled on its observable
result: a non-200 status yields `[]`, otherwise the body's `"response"` list
(absent key defaulting to `[]`). -/
def fetch_match_statistics (status : ℕ) (body : Option (List TeamBlock)) :
    List TeamBlock :=
  if status ≠ 200 then [] else body.getD []

/-- Two-digit zero-padded rendering of an integer in `[0, 100)`. -/
def twoDigits (n : ℤ) : String :=
  if n < 10 then "0" ++ toString n else toString n

/-- Model of Python's `f"{prob:.2%}"`: the probability times 100, rendered
with two decimal places and a trailing percent sign. -/
def formatPercent (q : ℚ) : String :=
  let n : ℤ := round (q * 10000)
  toString (n / 100) ++ "." ++ twoDigits (n % 100) ++ "%"

/-- Model of Python's rendering `f"{real_stats}"` of the stats dictionary
(numeric values rendered by `toString`). -/
def reprStats (e : Extracted) : String :=
  "\x7b\x27xG_home\x27: " ++ toString e.xg_home ++
  ", \x27xG_away\x27: " ++ toString e.xg_away ++
  ", \x27shots_on_home\x27: " ++ toString e.shots_home ++
  ", \x27shots_on_away\x27: " ++ toString e.shots_away ++
  ", \x27attacks_home\x27: " ++ toString e.attacks_home ++
  ", \x27attacks_away\x27: " ++ toString e.attacks_away ++ "\x7d"

/-- The alert message composed at source lines 113-118. -/
def composeMessage (homeName awayName : String) (prob : ℚ) (statsText : String) : String :=
  "⚡ Probabilità alta di gol!\n" ++ homeName ++ " 🆚 " ++ awayName ++ "\n" ++
  "Probabilità stimata: " ++ formatPercent prob ++ "\n" ++
  "📊 Stats: " ++ statsText

/-- `big` contains `small` as a contiguous substring. -/
def containsStr (big small : String) : Prop :=
  small.data <:+: big.data

instance (big small : String) : Decidable (containsStr big small) :=
  List.decidableInfix small.data big.data

/-- The body of `for match in matches` in `analyze_matches` (source
lines 69-119) for one match: read `match["fixture"]["id"]` and
`match["teams"]` (each raising when absent), fetch the statistics response,
run the extraction loop, compute the probability, and send exactly one
message when `prob >= threshold`.  The returned list holds the messages
sent for this match. -/
def analyzeMatch (threshold : ℚ) (fetchStats : ℤ → List TeamBlock) (m : RawMatch) :
    Except KeyErr (List String) :=
  match m.fixture with
  | none => Except.error KeyErr.fixture
  | some fixture_id =>
    match m.teams with
    | none => Except.error KeyErr.teams
    | some tms =>
      let stats_response := fetchStats fixture_id
      match extractStats tms.home stats_response zeroExtracted with
      | Except.error e => Except.error e
      | Except.ok ex =>
        let real_stats := mkStats ex
        let prob := compute_goal_probability real_stats
        if threshold ≤ prob then
          Except.ok [composeMessage tms.home tms.away prob (reprStats ex)]
        else
          Except.ok []

/-- `analyze_matches` over the live-match list: matches are processed in
order; an uncaught `KeyError` aborts the pass, keeping the messages already
sent, and propagates to the caller (the poll loop). -/
def analyze_matches (threshold : ℚ) (fetchStats : ℤ → List TeamBlock) :
    List RawMatch → List String × Option KeyErr
  | [] => ([], none)
  | m :: rest =>
    match analyzeMatch threshold fetchStats m with
    | Except.error e => ([], some e)
    | Except.ok msgs =>
      let r := analyze_matches threshold fetchStats rest
      (msgs ++ r.1, r.2)

/-- Default poll interval in seconds (source line 12). -/
def POLL_SECONDS : ℕ := 60

/-- Input of one poll pass: the per-fixture statistics fetcher and the
live-match list the data source returns for that pass. -/
structure PassInput where
  fetchStats : ℤ → List TeamBlock
  liveMatches : List RawMatch

/-- One iteration of `background_task` (source lines 122-129): run the
analysis, catch and log any exception it raised, then sleep `POLL_SECONDS`.
Result: (messages sent, logged exception, seconds slept). -/
def background_iteration (threshold : ℚ) (input : PassInput) :
    List String × Option KeyErr × ℕ :=
  let r := analyze_matches threshold input.fetchStats input.liveMatches
  (r.1, r.2, POLL_SECONDS)

/-- The trace of the infinite `while True` loop of `background_task` after
`n` iterations, given the per-iteration inputs from the data source. -/
def background_run (threshold : ℚ) (schedule : ℕ → PassInput) :
    ℕ → List (List String × Option KeyErr × ℕ)
  | 0 => []
  | n + 1 =>
    background_run threshold schedule n ++ [background_iteration threshold (schedule n)]

/-- A statistics-response block with both the `"team"` and `"statistics"`
keys present (the well-formed case, in which no `KeyError` is raised). -/
def wfBlock (p : String × List StatEntry) : TeamBlock :=
  ⟨some p.1, some p.2⟩

/-- A schedule of poll-pass inputs whose every pass contains a single
malformed match (missing `"fixture"` key), so that every analysis raises. -/
def demoSchedule : ℕ → PassInput :=
  fun _ => ⟨fun _ => [], [⟨none, none⟩]⟩

/-- A sample statistics response with two well-formed team blocks
(home xG 2.0, shots on goal 4, attacks 10; away xG 1.0, shots 2, attacks 5). -/
def demoResponseHigh : List TeamBlock :=
  [⟨some "Milan", some [⟨"Shots on Goal", some 4⟩, ⟨"Attacks", some 10⟩, ⟨"xG", some 2⟩]⟩,
   ⟨some "Inter", some [⟨"Shots on Goal", some 2⟩, ⟨"Attacks", some 5⟩, ⟨"xG", some 1⟩]⟩]

/-- The same sample response with home xG 1.0 and away xG 0.5. -/
def demoResponseLow : List TeamBlock :=
  [⟨some "Milan", some [⟨"Shots on Goal", some 4⟩, ⟨"Attacks", some 10⟩, ⟨"xG", some 1⟩]⟩,
   ⟨some "Inter", some [⟨"Shots on Goal", some 2⟩, ⟨"Attacks", some 5⟩, ⟨"xG", some 0.5⟩]⟩]

/-! ### Helper lemmas -/

/-- The middle component of a three-part string concatenation is a
contiguous substring of the whole. -/
theorem containsStr_middle (a b c : String) : containsStr (a ++ b ++ c) b :=
  ⟨a.data, c.data, by simp [String.data_append]⟩

/-- The right component of a two-part string concatenation is a contiguous
substring of the whole. -/
theorem containsStr_right (a b : String) : containsStr (a ++ b) b :=
  ⟨a.data, [], by simp [String.data_append]⟩

/-- The alert message contains the home team name. -/
theorem composeMessage_contains_home (h a : String) (p : ℚ) (st : String) :
    containsStr (composeMessage h a p st) h :=
  ⟨("⚡ Probabilità alta di gol!\n" : String).data,
    (" 🆚 " ++ a ++ "\n" ++ "Probabilità stimata: " ++ formatPercent p ++ "\n" ++
      "📊 Stats: " ++ st : String).data,
    by simp [composeMessage, String.data_append]⟩

/-- The alert message contains the away team name. -/
theorem composeMessage_contains_away (h a : String) (p : ℚ) (st : String) :
    containsStr (composeMessage h a p st) a :=
  ⟨("⚡ Probabilità alta di gol!\n" ++ h ++ " 🆚 " : String).data,
    ("\n" ++ "Probabilità stimata: " ++ formatPercent p ++ "\n" ++
      "📊 Stats: " ++ st : String).data,
    by simp [composeMessage, String.data_append]⟩

/-- The alert message contains the percentage-formatted probability. -/
theorem composeMessage_contains_percent (h a : String) (p : ℚ) (st : String) :
    containsStr (composeMessage h a p st) (formatPercent p) :=
  ⟨("⚡ Probabilità alta di gol!\n" ++ h ++ " 🆚 " ++ a ++ "\n" ++
      "Probabilità stimata: " : String).data,
    ("\n" ++ "📊 Stats: " ++ st : String).data,
    by simp [composeMessage, String.data_append]⟩

/-- The alert message contains the rendered stats dictionary. -/
theorem composeMessage_contains_stats (h a : String) (p : ℚ) (st : String) :
    containsStr (composeMessage h a p st) st :=
  ⟨("⚡ Probabilità alta di gol!\n" ++ h ++ " 🆚 " ++ a ++ "\n" ++
      "Probabilità stimata: " ++ formatPercent p ++ "\n" ++ "📊 Stats: " : String).data,
    [], by simp [composeMessage, String.data_append]⟩

/-- Closed form of `compute_goal_probability` on a stats dictionary with all
six keys present. -/
theorem compute_full (a b c d e f : ℚ) :
    compute_goal_probability ⟨some a, some b, some c, some d, some e, some f⟩ =
      min (((a + b) * 0.5 + (c + d) * 0.05 + (e + f) * 0.01) / 2) 1 := by
  simp [compute_goal_probability]

/-- `min (· / 2) 1` is monotone. -/
theorem min_div2_mono {x y : ℚ} (h : x ≤ y) : min (x / 2) 1 ≤ min (y / 2) 1 :=
  min_le_min (by linarith) le_rfl

/-! ### Claims -/

/-- C1: for every input stats record (all six fields present),
`compute_goal_probability` returns
`min(((xG_home + xG_away) * 0.5 + (shots_on_home + shots_on_away) * 0.05 +
(attacks_home + attacks_away) * 0.01) / 2, 1.0)`, with exactly these
coefficients and the division-by-2 normalization. -/
theorem c1_compute_goal_probability_formula (a b c d e f : ℚ) :
    compute_goal_probability ⟨some a, some b, some c, some d, some e, some f⟩ =
      min (((a + b) * 0.5 + (c + d) * 0.05 + (e + f) * 0.01) / 2) 1 :=
  compute_full a b c d e f

/-- C3: for every stats record whose six fields are all non-negative,
`compute_goal_probability` returns a value in the closed interval [0, 1]. -/
theorem c3_probability_in_unit_interval (a b c d e f : ℚ)
    (ha : 0 ≤ a) (hb : 0 ≤ b) (hc : 0 ≤ c) (hd : 0 ≤ d) (he : 0 ≤ e) (hf : 0 ≤ f) :
    0 ≤ compute_goal_probability ⟨some a, some b, some c, some d, some e, some f⟩ ∧
      compute_goal_probability ⟨some a, some b, some c, some d, some e, some f⟩ ≤ 1 := by
  rw [compute_full]
  refine ⟨le_min (by linarith) (by norm_num), min_le_right _ _⟩

/-- Witness for C3 at the concrete record (2, 1, 4, 2, 10, 5). -/
theorem c3_probability_in_unit_interval_witness :
    0 ≤ compute_goal_probability ⟨some 2, some 1, some 4, some 2, some 10, some 5⟩ ∧
      compute_goal_probability ⟨some 2, some 1, some 4, some 2, some 10, some 5⟩ ≤ 1 :=
  c3_probability_in_unit_interval 2 1 4 2 10 5 (by norm_num) (by norm_num) (by norm_num)
    (by norm_num) (by norm_num) (by norm_num)

/-- C4: `compute_goal_probability` is monotonically non-decreasing in each of
its six input fields independently: increasing any single field while holding
the other five fixed never decreases the returned probability. -/
theorem c4_compute_goal_probability_monotone (a b c d e f a2 b2 c2 d2 e2 f2 : ℚ)
    (h1 : a ≤ a2) (h2 : b ≤ b2) (h3 : c ≤ c2) (h4 : d ≤ d2) (h5 : e ≤ e2) (h6 : f ≤ f2) :
    compute_goal_probability ⟨some a, some b, some c, some d, some e, some f⟩ ≤
        compute_goal_probability ⟨some a2, some b, some c, some d, some e, some f⟩ ∧
      compute_goal_probability ⟨some a, some b, some c, some d, some e, some f⟩ ≤
        compute_goal_probability ⟨some a, some b2, some c, some d, some e, some f⟩ ∧
      compute_goal_probability ⟨some a, some b, some c, some d, some e, some f⟩ ≤
        compute_goal_probability ⟨some a, some b, some c2, some d, some e, some f⟩ ∧
      compute_goal_probability ⟨some a, some b, some c, some d, some e, some f⟩ ≤
        compute_goal_probability ⟨some a, some b, some c, some d2, some e, some f⟩ ∧
      compute_goal_probability ⟨some a, some b, some c, some d, some e, some f⟩ ≤
        compute_goal_probability ⟨some a, some b, some c, some d, some e2, some f⟩ ∧
      compute_goal_probability ⟨some a, some b, some c, some d, some e, some f⟩ ≤
        compute_goal_probability ⟨some a, some b, some c, some d, some e, some f2⟩ := by
  simp only [compute_full]
  exact ⟨min_div2_mono (by linarith), min_div2_mono (by linarith),
    min_div2_mono (by linarith), min_div2_mono (by linarith),
    min_div2_mono (by linarith), min_div2_mono (by linarith)⟩

/-- Witness for C4 at concrete inputs. -/
theorem c4_compute_goal_probability_monotone_witness :
    compute_goal_probability ⟨some 1, some 1, some 4, some 2, some 10, some 5⟩ ≤
        compute_goal_probability ⟨some 2, some 1, some 4, some 2, some 10, some 5⟩ ∧
      compute_goal_probability ⟨some 1, some 1, some 4, some 2, some 10, some 5⟩ ≤
        compute_goal_probability ⟨some 1, some 3, some 4, some 2, some 10, some 5⟩ ∧
      compute_goal_probability ⟨some 1, some 1, some 4, some 2, some 10, some 5⟩ ≤
        compute_goal_probability ⟨some 1, some 1, some 5, some 2, some 10, some 5⟩ ∧
      compute_goal_probability ⟨some 1, some 1, some 4, some 2, some 10, some 5⟩ ≤
        compute_goal_probability ⟨some 1, some 1, some 4, some 6, some 10, some 5⟩ ∧
      compute_goal_probability ⟨some 1, some 1, some 4, some 2, some 10, some 5⟩ ≤
        compute_goal_probability ⟨some 1, some 1, some 4, some 2, some 11, some 5⟩ ∧
      compute_goal_probability ⟨some 1, some 1, some 4, some 2, some 10, some 5⟩ ≤
        compute_goal_probability ⟨some 1, some 1, some 4, some 2, some 10, some 9⟩ :=
  c4_compute_goal_probability_monotone 1 1 4 2 10 5 2 3 5 6 11 9 (by norm_num) (by norm_num)
    (by norm_num) (by norm_num) (by norm_num) (by norm_num)

/-- C2: for every match in a poll pass (one iteration of the `for match in
matches` loop, with a successfully extracted stats record), a notification is
sent if and only if the computed probability is at least the threshold; when
sent, exactly one message is sent for that match, and it contains both team
names, the percentage-formatted probability, and the rendered normalized
stats; when the probability is below the threshold, zero messages are sent. -/
theorem c2_alert_iff_threshold (threshold : ℚ) (fetchStats : ℤ → List TeamBlock)
    (fid : ℤ) (tms : Teams) (ex : Extracted)
    (hex : extractStats tms.home (fetchStats fid) zeroExtracted = Except.ok ex) :
    (threshold ≤ compute_goal_probability (mkStats ex) →
      analyzeMatch threshold fetchStats ⟨some fid, some tms⟩ =
          Except.ok [composeMessage tms.home tms.away
            (compute_goal_probability (mkStats ex)) (reprStats ex)] ∧
        containsStr (composeMessage tms.home tms.away
          (compute_goal_probability (mkStats ex)) (reprStats ex)) tms.home ∧
        containsStr (composeMessage tms.home tms.away
          (compute_goal_probability (mkStats ex)) (reprStats ex)) tms.away ∧
        containsStr (composeMessage tms.home tms.away
          (compute_goal_probability (mkStats ex)) (reprStats ex))
          (formatPercent (compute_goal_probability (mkStats ex))) ∧
        containsStr (composeMessage tms.home tms.away
          (compute_goal_probability (mkStats ex)) (reprStats ex)) (reprStats ex)) ∧
    (compute_goal_probability (mkStats ex) < threshold →
      analyzeMatch threshold fetchStats ⟨some fid, some tms⟩ = Except.ok []) := by
  constructor
  · intro hge
    refine ⟨?_, composeMessage_contains_home _ _ _ _, composeMessage_contains_away _ _ _ _,
      composeMessage_contains_percent _ _ _ _, composeMessage_contains_stats _ _ _ _⟩
    simp [analyzeMatch, hex, hge]
  · intro hlt
    simp [analyzeMatch, hex, not_le.mpr hlt]

/-- Witness for C2 at a concrete match and statistics response. -/
theorem c2_alert_iff_threshold_witness :
    analyzeMatch 0.7 (fun _ => demoResponseHigh) ⟨some 1, some ⟨"Milan", "Inter"⟩⟩ =
        Except.ok [composeMessage "Milan" "Inter"
          (compute_goal_probability (mkStats ⟨2, 1, 4, 2, 10, 5⟩))
          (reprStats ⟨2, 1, 4, 2, 10, 5⟩)] ∧
      containsStr (composeMessage "Milan" "Inter"
        (compute_goal_probability (mkStats ⟨2, 1, 4, 2, 10, 5⟩))
        (reprStats ⟨2, 1, 4, 2, 10, 5⟩)) "Milan" ∧
      containsStr (composeMessage "Milan" "Inter"
        (compute_goal_probability (mkStats ⟨2, 1, 4, 2, 10, 5⟩))
        (reprStats ⟨2, 1, 4, 2, 10, 5⟩)) "Inter" ∧
      containsStr (composeMessage "Milan" "Inter"
        (compute_goal_probability (mkStats ⟨2, 1, 4, 2, 10, 5⟩))
        (reprStats ⟨2, 1, 4, 2, 10, 5⟩))
        (formatPercent (compute_goal_probability (mkStats ⟨2, 1, 4, 2, 10, 5⟩))) ∧
      containsStr (composeMessage "Milan" "Inter"
        (compute_goal_probability (mkStats ⟨2, 1, 4, 2, 10, 5⟩))
        (reprStats ⟨2, 1, 4, 2, 10, 5⟩)) (reprStats ⟨2, 1, 4, 2, 10, 5⟩) := by
  have h := c2_alert_iff_threshold 0.7 (fun _ => demoResponseHigh) 1 ⟨"Milan", "Inter"⟩
    ⟨2, 1, 4, 2, 10, 5⟩
    (by simp [demoResponseHigh, extractStats, applyBlock, applyEntry, zeroExtracted])
  exact h.1 (by rw [show mkStats ⟨2, 1, 4, 2, 10, 5⟩ =
    ⟨some 2, some 1, some 4, some 2, some 10, some 5⟩ from rfl, compute_full]; norm_num)

/-- C5: for every match whose statistics fetch fails (non-200 status), the
statistics set is the empty list, the extraction step leaves the all-zero
accumulator, the resulting probability is 0, and (for any positive
threshold) no alert message is sent for that match. -/
theorem c5_failed_stats_fetch_no_alert (status : ℕ) (hs : status ≠ 200)
    (body : Option (List TeamBlock)) (threshold : ℚ) (ht : 0 < threshold)
    (fid : ℤ) (tms : Teams) :
    fetch_match_statistics status body = [] ∧
    extractStats tms.home [] zeroExtracted = Except.ok zeroExtracted ∧
    compute_goal_probability (mkStats zeroExtracted) = 0 ∧
    analyzeMatch threshold (fun _ => fetch_match_statistics status body)
      ⟨some fid, some tms⟩ = Except.ok [] := by
  have hempty : fetch_match_statistics status body = [] := by
    simp [fetch_match_statistics, hs]
  have hzero : compute_goal_probability (mkStats zeroExtracted) = 0 := by
    rw [show mkStats zeroExtracted =
      ⟨some 0, some 0, some 0, some 0, some 0, some 0⟩ from rfl, compute_full]
    norm_num
  refine ⟨hempty, rfl, hzero, ?_⟩
  simp [analyzeMatch, hempty, extractStats, hzero, not_le.mpr ht]

/-- Witness for C5 at status 404 and threshold 0.7. -/
theorem c5_failed_stats_fetch_no_alert_witness :
    fetch_match_statistics 404 none = [] ∧
    extractStats "Milan" [] zeroExtracted = Except.ok zeroExtracted ∧
    compute_goal_probability (mkStats zeroExtracted) = 0 ∧
    analyzeMatch 0.7 (fun _ => fetch_match_statistics 404 none)
      ⟨some 1, some ⟨"Milan", "Inter"⟩⟩ = Except.ok [] :=
  c5_failed_stats_fetch_no_alert 404 (by decide) none 0.7 (by norm_num) 1 ⟨"Milan", "Inter"⟩

/-- Python's `f"{0.975:.2%}"` renders as `97.50%`. -/
theorem formatPercent_0975 : formatPercent 0.975 = "97.50%" := by
  have h : round ((0.975 : ℚ) * 10000) = 9750 := by
    rw [round_eq]
    norm_num
  simp [formatPercent, h]
  decide

/-- C9: on the stats record (xG 2.0/1.0, shots 4/2, attacks 10/5) the
probability is exactly 0.975, the alert fires at threshold 0.7 and the
message contains "97.50%"; with xG 1.0/0.5 instead the probability is 0.6
and no alert fires. -/
theorem c9_end_to_end_examples :
    compute_goal_probability (mkStats ⟨2, 1, 4, 2, 10, 5⟩) = 0.975 ∧
    analyzeMatch 0.7 (fun _ => demoResponseHigh) ⟨some 1, some ⟨"Milan", "Inter"⟩⟩ =
      Except.ok [composeMessage "Milan" "Inter" 0.975 (reprStats ⟨2, 1, 4, 2, 10, 5⟩)] ∧
    containsStr (composeMessage "Milan" "Inter" 0.975 (reprStats ⟨2, 1, 4, 2, 10, 5⟩))
      "97.50%" ∧
    compute_goal_probability (mkStats ⟨1, 0.5, 4, 2, 10, 5⟩) = 0.6 ∧
    analyzeMatch 0.7 (fun _ => demoResponseLow) ⟨some 1, some ⟨"Milan", "Inter"⟩⟩ =
      Except.ok [] := by
  have hex : extractStats "Milan" demoResponseHigh zeroExtracted =
      Except.ok ⟨2, 1, 4, 2, 10, 5⟩ := by
    simp [demoResponseHigh, extractStats, applyBlock, applyEntry, zeroExtracted]
  have hexlow : extractStats "Milan" demoResponseLow zeroExtracted =
      Except.ok ⟨1, 0.5, 4, 2, 10, 5⟩ := by
    simp [demoResponseLow, extractStats, applyBlock, applyEntry, zeroExtracted]
  have hp : compute_goal_probability (mkStats ⟨2, 1, 4, 2, 10, 5⟩) = 0.975 := by
    rw [show mkStats ⟨2, 1, 4, 2, 10, 5⟩ =
      ⟨some 2, some 1, some 4, some 2, some 10, some 5⟩ from rfl, compute_full]
    norm_num
  have hplow : compute_goal_probability (mkStats ⟨1, 0.5, 4, 2, 10, 5⟩) = 0.6 := by
    rw [show mkStats ⟨1, 0.5, 4, 2, 10, 5⟩ =
      ⟨some 1, some 0.5, some 4, some 2, some 10, some 5⟩ from rfl, compute_full]
    norm_num
  refine ⟨hp, ?_, ?_, hplow, ?_⟩
  · have h07 : (0.7 : ℚ) ≤ 0.975 := by norm_num
    simp [analyzeMatch, hex, hp, h07]
  · have := composeMessage_contains_percent "Milan" "Inter" 0.975
      (reprStats ⟨2, 1, 4, 2, 10, 5⟩)
    rwa [formatPercent_0975] at this
  · have hlt : ¬ (0.7 : ℚ) ≤ compute_goal_probability (mkStats ⟨1, 0.5, 4, 2, 10, 5⟩) := by
      rw [hplow]; norm_num
    simp [analyzeMatch, hexlow, hlt]

/-- On a list of well-formed blocks the extraction loop raises no error and
computes the nested fold of `applyEntry`. -/
theorem extract_wf_ok (home : String) (ps : List (String × List StatEntry)) (acc : Extracted) :
    extractStats home (ps.map wfBlock) acc =
      Except.ok (ps.foldl (fun a p => p.2.foldl (applyEntry home p.1) a) acc) := by
  induction ps generalizing acc with
  | nil => rfl
  | cons p ps ih => simp [extractStats, applyBlock, wfBlock, ih]

/-- The inner entry fold preserves a projection `π` of the accumulator when
every folded entry satisfies `P` and `applyEntry` preserves `π` on such
entries. -/
theorem foldl_applyEntry_invariant (home tn : String) (π : Extracted → ℚ)
    (P : StatEntry → Prop)
    (hπ : ∀ acc s, P s → π (applyEntry home tn acc s) = π acc)
    (l : List StatEntry) (acc : Extracted) (h : ∀ s ∈ l, P s) :
    π (l.foldl (applyEntry home tn) acc) = π acc := by
  induction l generalizing acc with
  | nil => rfl
  | cons s l ih =>
    rw [List.foldl_cons, ih _ (fun x hx => h x (List.mem_cons_of_mem s hx)),
      hπ acc s (h s (List.mem_cons_self s l))]

/-- The block-level fold preserves a projection `π` under the same
conditions. -/
theorem blocks_foldl_invariant (home : String) (π : Extracted → ℚ) (P : StatEntry → Prop)
    (hπ : ∀ tn acc s, P s → π (applyEntry home tn acc s) = π acc)
    (ps : List (String × List StatEntry)) (acc : Extracted)
    (h : ∀ p ∈ ps, ∀ s ∈ p.2, P s) :
    π (ps.foldl (fun a p => p.2.foldl (applyEntry home p.1) a) acc) = π acc := by
  induction ps generalizing acc with
  | nil => rfl
  | cons p ps ih =>
    rw [List.foldl_cons, ih _ (fun q hq => h q (List.mem_cons_of_mem p hq)),
      foldl_applyEntry_invariant home p.1 π P (hπ p.1) p.2 acc (h p (List.mem_cons_self p ps))]

/-- An entry whose type is not `"Shots on Goal"` leaves both shot counters
unchanged. -/
theorem applyEntry_preserves_shots (home tn : String) (acc : Extracted) (s : StatEntry)
    (h : s.type ≠ "Shots on Goal") :
    (applyEntry home tn acc s).shots_home = acc.shots_home ∧
      (applyEntry home tn acc s).shots_away = acc.shots_away := by
  simp only [applyEntry, h, if_false]
  split_ifs <;> exact ⟨rfl, rfl⟩

/-- An entry whose type is not `"Attacks"` leaves both attack counters
unchanged. -/
theorem applyEntry_preserves_attacks (home tn : String) (acc : Extracted) (s : StatEntry)
    (h : s.type ≠ "Attacks") :
    (applyEntry home tn acc s).attacks_home = acc.attacks_home ∧
      (applyEntry home tn acc s).attacks_away = acc.attacks_away := by
  simp only [applyEntry, h, if_false]
  split_ifs <;> exact ⟨rfl, rfl⟩

/-- An entry whose type is not `"xG"` leaves both xG fields unchanged. -/
theorem applyEntry_preserves_xg (home tn : String) (acc : Extracted) (s : StatEntry)
    (h : s.type ≠ "xG") :
    (applyEntry home tn acc s).xg_home = acc.xg_home ∧
      (applyEntry home tn acc s).xg_away = acc.xg_away := by
  simp only [applyEntry, h, if_false]
  split_ifs <;> exact ⟨rfl, rfl⟩

/-- An entry with a null value either leaves each field unchanged or sets
it to 0. -/
theorem applyEntry_null_contributes_zero (home tn : String) (acc : Extracted) (s : StatEntry)
    (h : s.value = none) :
    ((applyEntry home tn acc s).xg_home = acc.xg_home ∨
        (applyEntry home tn acc s).xg_home = 0) ∧
      ((applyEntry home tn acc s).xg_away = acc.xg_away ∨
        (applyEntry home tn acc s).xg_away = 0) ∧
      ((applyEntry home tn acc s).shots_home = acc.shots_home ∨
        (applyEntry home tn acc s).shots_home = 0) ∧
      ((applyEntry home tn acc s).shots_away = acc.shots_away ∨
        (applyEntry home tn acc s).shots_away = 0) ∧
      ((applyEntry home tn acc s).attacks_home = acc.attacks_home ∨
        (applyEntry home tn acc s).attacks_home = 0) ∧
      ((applyEntry home tn acc s).attacks_away = acc.attacks_away ∨
        (applyEntry home tn acc s).attacks_away = 0) := by
  simp only [applyEntry, h, Option.getD_none]
  split_ifs <;> simp

/-- C6: in the extraction step, a stat entry with a null value contributes
0 (each accumulator field is either untouched or set to 0), a recognized
stat type with no entry present leaves the corresponding fields at their
default of 0, and no error is raised on well-formed blocks. -/
theorem c6_null_and_missing_yield_zero (home : String)
    (ps : List (String × List StatEntry)) :
    (∃ ex, extractStats home (ps.map wfBlock) zeroExtracted = Except.ok ex) ∧
    (∀ tn acc s, s.value = none →
      ((applyEntry home tn acc s).xg_home = acc.xg_home ∨
          (applyEntry home tn acc s).xg_home = 0) ∧
        ((applyEntry home tn acc s).xg_away = acc.xg_away ∨
          (applyEntry home tn acc s).xg_away = 0) ∧
        ((applyEntry home tn acc s).shots_home = acc.shots_home ∨
          (applyEntry home tn acc s).shots_home = 0) ∧
        ((applyEntry home tn acc s).shots_away = acc.shots_away ∨
          (applyEntry home tn acc s).shots_away = 0) ∧
        ((applyEntry home tn acc s).attacks_home = acc.attacks_home ∨
          (applyEntry home tn acc s).attacks_home = 0) ∧
        ((applyEntry home tn acc s).attacks_away = acc.attacks_away ∨
          (applyEntry home tn acc s).attacks_away = 0)) ∧
    ((∀ p ∈ ps, ∀ s ∈ p.2, s.type ≠ "Shots on Goal") →
      ∀ ex, extractStats home (ps.map wfBlock) zeroExtracted = Except.ok ex →
        ex.shots_home = 0 ∧ ex.shots_away = 0) ∧
    ((∀ p ∈ ps, ∀ s ∈ p.2, s.type ≠ "Attacks") →
      ∀ ex, extractStats home (ps.map wfBlock) zeroExtracted = Except.ok ex →
        ex.attacks_home = 0 ∧ ex.attacks_away = 0) ∧
    ((∀ p ∈ ps, ∀ s ∈ p.2, s.type ≠ "xG") →
      ∀ ex, extractStats home (ps.map wfBlock) zeroExtracted = Except.ok ex →
        ex.xg_home = 0 ∧ ex.xg_away = 0) := by
  refine ⟨⟨_, extract_wf_ok home ps zeroExtracted⟩,
    fun tn acc s h => applyEntry_null_contributes_zero home tn acc s h, ?_, ?_, ?_⟩
  · intro hmiss ex hex
    rw [extract_wf_ok] at hex
    obtain rfl := Except.ok.inj hex
    exact ⟨blocks_foldl_invariant home (fun a => a.shots_home) _
        (fun tn acc s h => (applyEntry_preserves_shots home tn acc s h).1)
        ps zeroExtracted hmiss,
      blocks_foldl_invariant home (fun a => a.shots_away) _
        (fun tn acc s h => (applyEntry_preserves_shots home tn acc s h).2)
        ps zeroExtracted hmiss⟩
  · intro hmiss ex hex
    rw [extract_wf_ok] at hex
    obtain rfl := Except.ok.inj hex
    exact ⟨blocks_foldl_invariant home (fun a => a.attacks_home) _
        (fun tn acc s h => (applyEntry_preserves_attacks home tn acc s h).1)
        ps zeroExtracted hmiss,
      blocks_foldl_invariant home (fun a => a.attacks_away) _
        (fun tn acc s h => (applyEntry_preserves_attacks home tn acc s h).2)
        ps zeroExtracted hmiss⟩
  · intro hmiss ex hex
    rw [extract_wf_ok] at hex
    obtain rfl := Except.ok.inj hex
    exact ⟨blocks_foldl_invariant home (fun a => a.xg_home) _
        (fun tn acc s h => (applyEntry_preserves_xg home tn acc s h).1)
        ps zeroExtracted hmiss,
      blocks_foldl_invariant home (fun a => a.xg_away) _
        (fun tn acc s h => (applyEntry_preserves_xg home tn acc s h).2)
        ps zeroExtracted hmiss⟩

/-- Witness for C6 on a single block holding one null-valued xG entry. -/
theorem c6_null_and_missing_yield_zero_witness :
    (∃ ex, extractStats "H" ([("H", [⟨"xG", (none : Option ℚ)⟩])].map wfBlock)
      zeroExtracted = Except.ok ex) ∧
    ((applyEntry "H" "H" zeroExtracted ⟨"xG", none⟩).xg_home = zeroExtracted.xg_home ∨
      (applyEntry "H" "H" zeroExtracted ⟨"xG", none⟩).xg_home = 0) ∧
    (zeroExtracted.shots_home = 0 ∧ zeroExtracted.shots_away = 0) := by
  have h := c6_null_and_missing_yield_zero "H" [("H", [⟨"xG", none⟩])]
  exact ⟨h.1, (h.2.1 "H" zeroExtracted ⟨"xG", none⟩ rfl).1,
    h.2.2.1 (by simp) zeroExtracted
      (by simp [wfBlock, extractStats, applyBlock, applyEntry, zeroExtracted])⟩

/-- C7: a recognized stat entry in a block whose team name is exactly equal
to the fixture's home team name populates the corresponding home field, and
a block with any other team name populates the corresponding away field. -/
theorem c7_team_name_routing (home tn : String) (acc : Extracted) (s : StatEntry) (v : ℚ)
    (hv : s.value = some v) :
    (s.type = "Shots on Goal" →
      (tn = home → (applyEntry home tn acc s).shots_home = v) ∧
      (tn ≠ home → (applyEntry home tn acc s).shots_away = v)) ∧
    (s.type = "Attacks" →
      (tn = home → (applyEntry home tn acc s).attacks_home = v) ∧
      (tn ≠ home → (applyEntry home tn acc s).attacks_away = v)) ∧
    (s.type = "xG" →
      (tn = home → (applyEntry home tn acc s).xg_home = v) ∧
      (tn ≠ home → (applyEntry home tn acc s).xg_away = v)) := by
  refine ⟨fun ht => ⟨fun htn => ?_, fun htn => ?_⟩,
    fun ht => ⟨fun htn => ?_, fun htn => ?_⟩,
    fun ht => ⟨fun htn => ?_, fun htn => ?_⟩⟩ <;>
  simp [applyEntry, ht, htn, hv]

/-- Witness for C7: a shots-on-goal entry routed to the home side for the
matching team name and to the away side for a non-matching one. -/
theorem c7_team_name_routing_witness :
    (applyEntry "H" "H" zeroExtracted ⟨"Shots on Goal", some 4⟩).shots_home = 4 ∧
    (applyEntry "H" "X" zeroExtracted ⟨"Shots on Goal", some 4⟩).shots_away = 4 := by
  have h1 := c7_team_name_routing "H" "H" zeroExtracted ⟨"Shots on Goal", some 4⟩ 4 rfl
  have h2 := c7_team_name_routing "H" "X" zeroExtracted ⟨"Shots on Goal", some 4⟩ 4 rfl
  exact ⟨(h1.1 rfl).1 rfl, (h2.1 rfl).2 (by decide)⟩

/-- C8: every iteration of the poll loop is executed (after `n` loop turns
the trace holds exactly `n` completed iterations, whatever the analysis
outcomes were), every iteration ends with the fixed `POLL_SECONDS` sleep,
an iteration whose analysis raised `e` logs `e` instead of terminating, and
the loop then proceeds to iteration `n + 1`. -/
theorem c8_loop_catches_and_continues (threshold : ℚ) (schedule : ℕ → PassInput) (n : ℕ) :
    (background_run threshold schedule n).length = n ∧
    (∀ eff ∈ background_run threshold schedule n, eff.2.2 = POLL_SECONDS) ∧
    (∀ e, (analyze_matches threshold (schedule n).fetchStats (schedule n).liveMatches).2 =
        some e →
      (background_iteration threshold (schedule n)).2.1 = some e ∧
        (background_iteration threshold (schedule n)).2.2 = POLL_SECONDS) ∧
    background_run threshold schedule (n + 1) =
      background_run threshold schedule n ++ [background_iteration threshold (schedule n)] := by
  refine ⟨?_, ?_, ?_, rfl⟩
  · induction n with
    | zero => rfl
    | succ n ih => simp [background_run, ih]
  · induction n with
    | zero => simp [background_run]
    | succ n ih =>
      intro eff heff
      rw [background_run, List.mem_append] at heff
      rcases heff with h | h
      · exact ih eff h
      · rw [List.mem_singleton] at h
        subst h
        rfl
  · intro e he
    exact ⟨by simp [background_iteration, he], rfl⟩

/-- Witness for C8 on a schedule whose every pass raises `KeyError` on a
match missing its `"fixture"` key. -/
theorem c8_loop_catches_and_continues_witness :
    (background_run 0.7 demoSchedule 1).length = 1 ∧
    (background_iteration 0.7 (demoSchedule 0)).2.2 = POLL_SECONDS ∧
    ((background_iteration 0.7 (demoSchedule 1)).2.1 = some KeyErr.fixture ∧
      (background_iteration 0.7 (demoSchedule 1)).2.2 = POLL_SECONDS) ∧
    background_run 0.7 demoSchedule 2 =
      background_run 0.7 demoSchedule 1 ++ [background_iteration 0.7 (demoSchedule 1)] := by
  have h := c8_loop_catches_and_continues 0.7 demoSchedule 1
  exact ⟨h.1, h.2.1 (background_iteration 0.7 (demoSchedule 0)) (by simp [background_run]),
    h.2.2.1 KeyErr.fixture (by simp [demoSchedule, analyze_matches, analyzeMatch]),
    h.2.2.2⟩

/-- A pass over `pre ++ bad :: post` where every match of `pre` analyzes
without raising and `bad` raises `e` keeps exactly the messages of `pre`
and ends with the uncaught error `e`. -/
theorem analyze_matches_append_error (threshold : ℚ) (fetchStats : ℤ → List TeamBlock)
    (pre : List RawMatch) (bad : RawMatch) (post : List RawMatch) (e : KeyErr)
    (hpre : (analyze_matches threshold fetchStats pre).2 = none)
    (hbad : analyzeMatch threshold fetchStats bad = Except.error e) :
    analyze_matches threshold fetchStats (pre ++ bad :: post) =
      ((analyze_matches threshold fetchStats pre).1, some e) := by
  induction pre with
  | nil => simp [analyze_matches, hbad]
  | cons m pre ih =>
    cases hm : analyzeMatch threshold fetchStats m with
    | error e2 => simp [analyze_matches, hm] at hpre
    | ok msgs =>
      have hpre2 : (analyze_matches threshold fetchStats pre).2 = none := by
        simpa [analyze_matches, hm] using hpre
      simp [analyze_matches, hm, ih hpre2]

/-- C10: a missing `"fixture"`, `"teams"`, `"team"` or `"statistics"` key
raises `KeyError` at that point; the pass over `pre ++ bad :: post` then
keeps the notifications already sent for `pre`, analyzes and alerts no
match of `post`, and propagates the error, which is caught (and logged)
only at the poll-loop boundary, where the loop still sleeps. -/
theorem c10_keyerror_aborts_pass (threshold : ℚ) (fetchStats : ℤ → List TeamBlock)
    (pre : List RawMatch) (bad : RawMatch) (post : List RawMatch) (e : KeyErr)
    (hpre : (analyze_matches threshold fetchStats pre).2 = none)
    (hbad : analyzeMatch threshold fetchStats bad = Except.error e) :
    analyze_matches threshold fetchStats (pre ++ bad :: post) =
      ((analyze_matches threshold fetchStats pre).1, some e) ∧
    (∀ t, analyzeMatch threshold fetchStats ⟨none, t⟩ = Except.error KeyErr.fixture) ∧
    (∀ i, analyzeMatch threshold fetchStats ⟨some i, none⟩ = Except.error KeyErr.teams) ∧
    (∀ home acc st, applyBlock home acc ⟨none, st⟩ = Except.error KeyErr.team) ∧
    (∀ home acc tn, applyBlock home acc ⟨some tn, none⟩ = Except.error KeyErr.statistics) ∧
    (background_iteration threshold ⟨fetchStats, pre ++ bad :: post⟩).2.1 = some e ∧
    (background_iteration threshold ⟨fetchStats, pre ++ bad :: post⟩).2.2 = POLL_SECONDS := by
  have hmain := analyze_matches_append_error threshold fetchStats pre bad post e hpre hbad
  refine ⟨hmain, fun t => rfl, fun i => rfl, fun home acc st => rfl,
    fun home acc tn => rfl, ?_, rfl⟩
  simp [background_iteration, hmain]

/-- Witness for C10: one alerting match, then a match missing its
`"fixture"` key, then one further match that is never analyzed. -/
theorem c10_keyerror_aborts_pass_witness :
    analyze_matches 0 (fun _ => []) ([⟨some 1, some ⟨"A", "B"⟩⟩] ++
        (⟨none, none⟩ : RawMatch) :: [⟨some 2, some ⟨"C", "D"⟩⟩]) =
      ((analyze_matches 0 (fun _ => []) [⟨some 1, some ⟨"A", "B"⟩⟩]).1,
        some KeyErr.fixture) ∧
    analyzeMatch 0 (fun _ => []) ⟨none, some ⟨"C", "D"⟩⟩ = Except.error KeyErr.fixture ∧
    analyzeMatch 0 (fun _ => []) ⟨some 5, none⟩ = Except.error KeyErr.teams ∧
    applyBlock "A" zeroExtracted ⟨none, some []⟩ = Except.error KeyErr.team ∧
    applyBlock "A" zeroExtracted ⟨some "B", none⟩ = Except.error KeyErr.statistics ∧
    (background_iteration 0 ⟨fun _ => [], [⟨some 1, some ⟨"A", "B"⟩⟩] ++
        (⟨none, none⟩ : RawMatch) :: [⟨some 2, some ⟨"C", "D"⟩⟩]⟩).2.1 =
      some KeyErr.fixture := by
  have h := c10_keyerror_aborts_pass 0 (fun _ => []) [⟨some 1, some ⟨"A", "B"⟩⟩]
    ⟨none, none⟩ [⟨some 2, some ⟨"C", "D"⟩⟩] KeyErr.fixture
    (by
      have hzero : compute_goal_probability (mkStats zeroExtracted) = 0 := by
        rw [show mkStats zeroExtracted =
          ⟨some 0, some 0, some 0, some 0, some 0, some 0⟩ from rfl, compute_full]
        norm_num
      simp [analyze_matches, analyzeMatch, extractStats, hzero])
    rfl
  exact ⟨h.1, h.2.1 (some ⟨"C", "D"⟩), h.2.2.1 5, h.2.2.2.1 "A" zeroExtracted (some []),
    h.2.2.2.2.1 "A" zeroExtracted "B", h.2.2.2.2.2.1⟩

end FootballBot
